import Mathlib

/-!
Verification development for the VoxelGenesis ecosystem simulation core.

The TypeScript source is shallowly embedded over exact rational arithmetic
(`ℚ` stands in for JS numbers; the claims under study concern comparisons,
clamps and counting, which the float code performs exactly on the inputs the
theorems use).  Transcendental library calls (`Math.sqrt`, `Math.sin`,
`Math.cos`) and the PRNG (`Math.random`) have no exact rational value, so the
embedding takes them as explicit oracle parameters: each theorem either
quantifies over the oracle or pins only oracle values that agree with the real
function (e.g. square roots of perfect squares).  Id generation
(`Math.random().toString(...)`) is likewise an oracle producing strings.
-/

namespace VoxelGenesis

/-- Grid edge length, `MAP_SIZE` in gameUtils.ts. -/
def MAP_SIZE : ℕ := 128

/-- Sea level constant, `SEA_LEVEL` in gameUtils.ts. -/
def SEA_LEVEL : ℚ := 1

/-- The terrain grid: `size` plus three flat arrays of length `size*size`
indexed `z*size+x`, embedded as total functions (reads outside the used range
never occur on the paths the code guards). -/
structure TerrainData where
  size : ℕ
  heights : ℕ → ℚ
  moisture : ℕ → ℚ
  vegetation : ℕ → ℚ

/-- Seasons, from types.ts. -/
inductive Season where
  | Spring | Summer | Autumn | Winter
deriving DecidableEq

/-- Weather snapshot, from types.ts. -/
structure WeatherState where
  year : ℕ
  season : Season
  temperature : ℚ
  rainfall : ℚ
  isFreakEvent : Bool
  eventLabel : Option String
deriving DecidableEq

/-- Brush modes, from types.ts. -/
inductive GameMode where
  | VIEW | RISE | LOWER | RAIN_ADD | RAIN_SUB
deriving DecidableEq

/-- Species tags, from types.ts. -/
inductive EntityType where
  | FISH | AMPHIBIAN | REPTILE | BIRD | MAMMAL | PRIMATE
deriving DecidableEq

/-- Diets, from types.ts. -/
inductive Diet where
  | HERBIVORE | CARNIVORE | OMNIVORE
deriving DecidableEq

/-- Entity record, from types.ts.  Optional JS fields that the simulation
reads through zero/false defaults (`vx = 0` destructuring, falsy
`isMigrating`) are embedded with those defaults. -/
structure Entity where
  id : String
  type : EntityType
  x : ℚ
  y : ℚ
  z : ℚ
  color : String
  rotation : ℚ := 0
  vx : ℚ := 0
  vy : ℚ := 0
  vz : ℚ := 0
  targetX : Option ℚ := none
  targetY : Option ℚ := none
  targetZ : Option ℚ := none
  homeX : ℚ
  homeZ : ℚ
  isMigrating : Bool := false
  packId : String := ""
  energy : ℚ
  maxEnergy : ℚ
  age : ℚ
  diet : Diet
deriving DecidableEq

/-- Per-species stats record (`ENTITY_STATS` row in App.tsx). -/
structure SpeciesStats where
  maxEnergy : ℚ
  diet : Diet
  color : String

/-- `ENTITY_STATS` from App.tsx. -/
def ENTITY_STATS : EntityType → SpeciesStats
  | .FISH      => ⟨100, .HERBIVORE, "#f97316"⟩
  | .AMPHIBIAN => ⟨120, .OMNIVORE,  "#65a30d"⟩
  | .REPTILE   => ⟨150, .CARNIVORE, "#15803d"⟩
  | .BIRD      => ⟨80,  .OMNIVORE,  "#e11d48"⟩
  | .MAMMAL    => ⟨200, .HERBIVORE, "#78350f"⟩
  | .PRIMATE   => ⟨180, .OMNIVORE,  "#d97706"⟩

/-- JS `Math.round` (round half toward +infinity). -/
def jsRound (q : ℚ) : ℤ := ⌊q + 1/2⌋

/-- Oracle stand-in for `Math.sqrt`, exact on squares of naturals (the only
arguments any concrete theorem below depends on); an under-approximation
elsewhere. -/
def sqrtQ (q : ℚ) : ℚ := (Nat.sqrt q.floor.toNat : ℚ)

/-- `getTerrainHeight` from gameUtils.ts: world-space query returning the
sentinel -10 outside the grid. -/
def getTerrainHeight (data : TerrainData) (x z : ℚ) : ℚ :=
  let half : ℚ := (data.size : ℚ) / 2
  let ix : ℤ := ⌊x + half⌋
  let iz : ℤ := ⌊z + half⌋
  if ix < 0 ∨ ix ≥ (data.size : ℤ) ∨ iz < 0 ∨ iz ≥ (data.size : ℤ) then -10
  else data.heights (iz * data.size + ix).toNat

/-- `calculateWeather` from gameUtils.ts.  The two sine calls are taken as
oracles: `trendSin p` stands for `Math.sin(p * Math.PI * 2)` and
`dailySin a` for `Math.sin(a)`; the year/season/freak-event logic is exact
integer arithmetic from the source. -/
def calculateWeather (trendSin : ℚ → ℚ) (dailySin : ℚ → ℚ) (tick : ℕ) :
    WeatherState :=
  let TICKS_PER_DAY : ℕ := 30
  let DAYS_PER_SEASON : ℕ := 30
  let SEASONS_PER_YEAR : ℕ := 4
  let TICKS_PER_YEAR : ℕ := TICKS_PER_DAY * DAYS_PER_SEASON * SEASONS_PER_YEAR
  let TREND_CYCLE_YEARS : ℕ := 10
  let year : ℕ := tick / TICKS_PER_YEAR + 1
  let seasonIndex : ℕ := (tick % TICKS_PER_YEAR) / (TICKS_PER_DAY * DAYS_PER_SEASON)
  let currentSeason : Season :=
    if seasonIndex = 0 then .Spring
    else if seasonIndex = 1 then .Summer
    else if seasonIndex = 2 then .Autumn
    else .Winter
  let baseTemp0 : ℚ :=
    match currentSeason with
    | .Spring => 0.6 | .Summer => 0.8 | .Autumn => 0.5 | .Winter => 0.2
  let baseRain0 : ℚ :=
    match currentSeason with
    | .Spring => 0.7 | .Summer => 0.3 | .Autumn => 0.6 | .Winter => 0.5
  let trendPhase : ℚ := ((year % TREND_CYCLE_YEARS : ℕ) : ℚ) / (TREND_CYCLE_YEARS : ℚ)
  let trendMod : ℚ := trendSin trendPhase
  let baseTemp1 : ℚ := baseTemp0 + trendMod * 0.15
  let baseRain1 : ℚ := baseRain0 - trendMod * 0.1
  let dailyNoise : ℚ := dailySin ((tick : ℚ) * 0.05) * 0.05
  let baseTemp2 : ℚ := baseTemp1 + dailyNoise
  let daySeed : ℕ := tick / TICKS_PER_DAY
  let isFreak : Bool := decide ((daySeed * 9301 + 49297) % 100 < 2)
  let freakType : ℕ := daySeed % 3
  let baseTemp3 : ℚ :=
    if isFreak then
      if freakType = 0 then baseTemp2 + 0.4
      else if freakType = 1 then baseTemp2 - 0.4
      else baseTemp2
    else baseTemp2
  let baseRain2 : ℚ :=
    if isFreak ∧ freakType ≠ 0 ∧ freakType ≠ 1 then baseRain1 + 0.5 else baseRain1
  let label : Option String :=
    if isFreak then
      if freakType = 0 then some "Heatwave"
      else if freakType = 1 then some "Cold Snap"
      else some "Monsoon"
    else none
  { year := year
    season := currentSeason
    temperature := max 0 (min 1 baseTemp3)
    rainfall := max 0 (min 1 baseRain2)
    isFreakEvent := isFreak
    eventLabel := label }

/-- Pointwise update of a flat array embedded as a function. -/
def updF (f : ℕ → ℚ) (i : ℕ) (v : ℚ) : ℕ → ℚ := fun j => if j = i then v else f j

/-- Signed offsets `-r .. r` covering a square brush/bounding box. -/
def offsetList (r : ℕ) : List ℤ := (List.range (2 * r + 1)).map (fun k => (k : ℤ) - r)

/-- One cell of the `handleInteract` brush loop body (App.tsx lines 128-159):
bounds check, circular-radius check via `Math.sqrt` (oracle `sq`), linear
falloff, then the mode switch. -/
def brushCell (sq : ℚ → ℚ) (mode : GameMode) (brushRad : ℕ) (cx cz dx dz : ℤ)
    (t : TerrainData) : TerrainData :=
  let x := cx + dx
  let z := cz + dz
  if x < 0 ∨ x ≥ (MAP_SIZE : ℤ) ∨ z < 0 ∨ z ≥ (MAP_SIZE : ℤ) then t
  else
    let idx : ℕ := (z * MAP_SIZE + x).toNat
    let dist : ℚ := sq ((dx * dx + dz * dz : ℤ) : ℚ)
    if dist > (brushRad : ℚ) then t
    else
      let falloff : ℚ := 1 - dist / ((brushRad : ℚ) + 1)
      match mode with
      | .RISE =>
          { t with heights := updF t.heights idx (t.heights idx + 0.5 * falloff) }
      | .LOWER =>
          { t with heights := updF t.heights idx (t.heights idx - 0.5 * falloff) }
      | .RAIN_ADD =>
          { t with moisture := updF t.moisture idx (min 1 (t.moisture idx + 0.1 * falloff)) }
      | .RAIN_SUB =>
          { t with moisture := updF t.moisture idx (max 0 (t.moisture idx - 0.1 * falloff)) }
      | .VIEW => t

/-- `handleInteract` from App.tsx: center the brush (JS `Math.round`), reject
out-of-grid centers, then sweep the square bounding box of the brush. -/
def handleInteract (sq : ℚ → ℚ) (mode : GameMode) (brushSize : ℕ) (px pz : ℚ)
    (t : TerrainData) : TerrainData :=
  let half : ℚ := (MAP_SIZE : ℚ) / 2
  let cx : ℤ := jsRound (px + half)
  let cz : ℤ := jsRound (pz + half)
  if cx < 0 ∨ cx ≥ (MAP_SIZE : ℤ) ∨ cz < 0 ∨ cz ≥ (MAP_SIZE : ℤ) then t
  else
    let brushRad : ℕ := brushSize / 2
    (offsetList brushRad).foldl
      (fun t1 dx =>
        (offsetList brushRad).foldl
          (fun t2 dz => brushCell sq mode brushRad cx cz dx dz t2) t1)
      t

/-- One sampled-cell body of the vegetation growth loop (App.tsx lines
226-275): land branch with cold/drought/growing-season rates and spontaneous
seeding, shallow-marine incremental growth capped at 0.5, transition zone
force-zeroed.  `roll` is the `Math.random()` draw of the branch that consumes
one. -/
def growthUpdate (w : WeatherState) (dt : ℚ) (rx rz : ℕ) (roll : ℚ)
    (t : TerrainData) : TerrainData :=
  let idx : ℕ := rz * MAP_SIZE + rx
  let h := t.heights idx
  let m := t.moisture idx
  let v := t.vegetation idx
  let vNew : ℚ :=
    if h > SEA_LEVEL then
      let effectiveMoisture := (m + w.rainfall) / 2
      let effectiveTemp := w.temperature
      let growthRate : ℚ :=
        if effectiveTemp < 0.3 then -0.01
        else if effectiveMoisture < 0.2 then -0.05
        else 0.05 * (1 - |0.7 - effectiveTemp|) * effectiveMoisture
      if v < 0.1 ∧ effectiveMoisture > 0.4 ∧ effectiveTemp > 0.4 ∧ roll < 0.05 * dt
      then 0.1
      else max 0 (min 1 (v + growthRate * dt))
    else if h < SEA_LEVEL - 1 then
      let v1 := if v < 0.5 ∧ roll < 0.05 * dt then v + 0.02 * dt else v
      min 0.5 v1
    else 0
  { t with vegetation := updF t.vegetation idx vNew }

/-- The vegetation-depletion / grazing part of the feeding block (App.tsx
lines 517-545): flat-array index from the entity position, the
`0 <= idx < vegetation.length` guard, fish eating algae above the 0.05
threshold and land herbivores above 0.1, each depleting 0.05 for +10 energy,
else the -1*dt starvation penalty.  Returns the updated terrain and the
energy delta. -/
def grazeResult (dt : ℚ) (t : TerrainData) (ty : EntityType) (ex ez : ℚ) :
    TerrainData × ℚ :=
  let ix : ℤ := ⌊ex + (MAP_SIZE : ℚ) / 2⌋
  let iz : ℤ := ⌊ez + (MAP_SIZE : ℚ) / 2⌋
  let idx : ℤ := iz * MAP_SIZE + ix
  if 0 ≤ idx ∧ idx < (t.size * t.size : ℤ) then
    let v := t.vegetation idx.toNat
    if ty = .FISH then
      if v > 0.05 then
        ({ t with vegetation := updF t.vegetation idx.toNat (v - 0.05) }, 10)
      else (t, -(1 * dt))
    else
      if v > 0.1 then
        ({ t with vegetation := updF t.vegetation idx.toNat (v - 0.05) }, 10)
      else (t, -(1 * dt))
  else (t, 0)

/-- The three kinds of terrain mutation named by the moisture/vegetation
range claim: brush edits, vegetation-growth samples, feeding depletion. -/
inductive TerrainOp where
  | brush (mode : GameMode) (brushSize : ℕ) (px pz : ℚ)
  | growth (w : WeatherState) (dt : ℚ) (rx rz : ℕ) (roll : ℚ)
  | graze (dt : ℚ) (ty : EntityType) (ex ez : ℚ)

/-- Semantics of one terrain operation. -/
def applyOp (sq : ℚ → ℚ) (t : TerrainData) : TerrainOp → TerrainData
  | .brush mode bs px pz => handleInteract sq mode bs px pz t
  | .growth w dt rx rz roll => growthUpdate w dt rx rz roll t
  | .graze dt ty ex ez => (grazeResult dt t ty ex ez).1

/-- A sequence of terrain operations applied in order. -/
def applyOps (sq : ℚ → ℚ) (ops : List TerrainOp) (t : TerrainData) : TerrainData :=
  ops.foldl (applyOp sq) t

/-- The range invariant exactly as the claim states it: moisture in [0,1]
everywhere, vegetation in [0,1] on cells above sea level and in [0,1/2] on
cells below sea level. -/
def InvC3 (t : TerrainData) : Prop :=
  ∀ i < t.size * t.size,
    (0 ≤ t.moisture i ∧ t.moisture i ≤ 1) ∧
    (t.heights i > SEA_LEVEL → 0 ≤ t.vegetation i ∧ t.vegetation i ≤ 1) ∧
    (t.heights i < SEA_LEVEL → 0 ≤ t.vegetation i ∧ t.vegetation i ≤ 1/2)

/-- The height-independent part of the range invariant: moisture and
vegetation both within [0,1] at every index. -/
def InvWeak (t : TerrainData) : Prop :=
  ∀ i, 0 ≤ t.moisture i ∧ t.moisture i ≤ 1 ∧ 0 ≤ t.vegetation i ∧ t.vegetation i ≤ 1

/-- Well-formedness the simulation loops guarantee for an operation: growth
samples and grazing only run with a positive elapsed-time scale (`dt <= 0`
short-circuits the tick). -/
def WFOp : TerrainOp → Prop
  | .brush _ _ _ _ => True
  | .growth _ dt _ _ _ => 0 < dt
  | .graze dt _ _ _ => 0 < dt

/-- Transient tectonic event (App.tsx `GeologicEvent`). -/
structure GeologicEvent where
  x : ℤ
  z : ℤ
  radius : ℚ
  strength : ℚ
  life : ℚ
deriving DecidableEq

/-- The height influence an active event applies across its bounding box for
one tick (App.tsx lines 201-217): circular cutoff `dist <= radius` and
`(1 - dist/radius) * strength * dt` added to each in-bounds cell, with
`Math.sqrt` as the oracle `sq`. -/
def applyEventInfluence (sq : ℚ → ℚ) (dt : ℚ) (t : TerrainData)
    (evt : GeologicEvent) : TerrainData :=
  let range : ℕ := (⌈evt.radius⌉).toNat
  (offsetList range).foldl
    (fun t1 dz =>
      (offsetList range).foldl
        (fun t2 dx =>
          let cx := evt.x + dx
          let cz := evt.z + dz
          if 0 ≤ cx ∧ cx < (MAP_SIZE : ℤ) ∧ 0 ≤ cz ∧ cz < (MAP_SIZE : ℤ) then
            let dist : ℚ := sq ((dx * dx + dz * dz : ℤ) : ℚ)
            if dist ≤ evt.radius then
              let influence := (1 - dist / evt.radius) * evt.strength * dt
              let idx : ℕ := (cz * MAP_SIZE + cx).toNat
              { t2 with heights := updF t2.heights idx (t2.heights idx + influence) }
            else t2
          else t2)
        t1)
    t

/-- One step of the event-processing pass (App.tsx lines 198-220): decrement
life by `dt`; only an event still strictly positive applies its influence and
is kept in the active queue. -/
def processGeologicEvent (sq : ℚ → ℚ) (dt : ℚ)
    (st : TerrainData × List GeologicEvent) (evt : GeologicEvent) :
    TerrainData × List GeologicEvent :=
  let evt1 : GeologicEvent := { evt with life := evt.life - dt }
  if evt1.life > 0 then
    (applyEventInfluence sq dt st.1 evt1, st.2 ++ [evt1])
  else st

/-- The whole per-tick geologic pass: fold the queue, collecting the surviving
events (`activeEvents`) and the mutated terrain. -/
def processGeologicEvents (sq : ℚ → ℚ) (dt : ℚ) (t : TerrainData)
    (evts : List GeologicEvent) : TerrainData × List GeologicEvent :=
  evts.foldl (processGeologicEvent sq dt) (t, [])

/-- Oracle for the random draws of the spawning block (App.tsx lines
461-501): the spawn-chance roll, the raw position draws, the pack-size draw,
per-member jitter draws, and the generated pack/member id strings. -/
structure SpawnOracle where
  roll : ℚ
  rxDraw : ℚ
  rzDraw : ℚ
  sizeDraw : ℚ
  jitterX : ℕ → ℚ
  jitterZ : ℕ → ℚ
  packId : String
  memberId : ℕ → String

/-- Oracle for the random draws of the feeding/reproduction pass: `sqrt` is
the `Math.sqrt` of the predation distance check; per-parent draws index the
reproduction block of App.tsx lines 566-599 (`migRoll` the migration roll,
`angCos i`/`angSin i` the cosine/sine of parent `i`'s random founder angle,
`rDraw` the 20..40 range draw, `xJitter`/`zJitter` the offspring position
jitters), and `babyId`/`newPackId` the generated id strings. -/
structure LifeOracle where
  sqrt : ℚ → ℚ
  migRoll : ℕ → ℚ
  angCos : ℕ → ℚ
  angSin : ℕ → ℚ
  rDraw : ℕ → ℚ
  xJitter : ℕ → ℚ
  zJitter : ℕ → ℚ
  babyId : ℕ → String
  newPackId : ℕ → String

/-- The species-inference chain of the spawning block (App.tsx lines
470-474): first unlocked node whose terrain height band accepts the sampled
spawn location. -/
def inferSpawnType (unlocked : List String) (rh : ℚ) : Option EntityType :=
  if "life_fish" ∈ unlocked ∧ rh < SEA_LEVEL - 2 then some .FISH
  else if "life_mammal" ∈ unlocked ∧ rh > SEA_LEVEL + 1 then some .MAMMAL
  else if "life_reptile" ∈ unlocked ∧ rh > SEA_LEVEL + 1 then some .REPTILE
  else if "life_bird" ∈ unlocked ∧ rh > 5 then some .BIRD
  else if "life_amphibian" ∈ unlocked ∧ rh > SEA_LEVEL - 1 ∧ rh < SEA_LEVEL + 1
    then some .AMPHIBIAN
  else none

/-- The abiogenesis/spawning block (App.tsx lines 461-501): density-dependent
spawn chance (rebound below population 20), random location, species inferred
from unlocked evolution nodes against terrain height bands, a pack of
`2 + floor(rand*4)` members sharing home and packId, and the appended result
truncated to the hard cap of 200. -/
def spawnPhase (so : SpawnOracle) (dt : ℚ) (unlocked : List String)
    (t : TerrainData) (es : List Entity) : List Entity :=
  let population := es.length
  let spawnChance : ℚ := if population < 20 then 0.5 else 0.05
  if population < 200 ∧ so.roll < spawnChance * dt then
    let rx : ℚ := (so.rxDraw - 0.5) * ((MAP_SIZE : ℚ) - 4)
    let rz : ℚ := (so.rzDraw - 0.5) * ((MAP_SIZE : ℚ) - 4)
    let rh : ℚ := getTerrainHeight t rx rz
    match inferSpawnType unlocked rh with
    | none => es
    | some ty =>
        let stats := ENTITY_STATS ty
        let packSize : ℕ := 2 + ((so.sizeDraw * 4).floor).toNat
        let newPack : List Entity :=
          (List.range packSize).map fun i =>
            let ox := rx + (so.jitterX i - 0.5) * 4
            let oz := rz + (so.jitterZ i - 0.5) * 4
            { id := so.memberId i
              type := ty
              x := ox, y := rh, z := oz
              color := stats.color
              homeX := rx, homeZ := rz
              packId := so.packId
              energy := stats.maxEnergy
              maxEnergy := stats.maxEnergy
              age := 0
              diet := stats.diet }
        (es ++ newPack).take 200
  else es

/-- One entity's turn in the feeding `forEach` (App.tsx lines 514-557): skip
when already at the energy cap; herbivores/omnivores graze via `grazeResult`;
carnivores/omnivores take the first not-yet-consumed other entity within 2
units (`find` over the array, whose ids and positions are static during the
pass) for +50 energy, else pay the starvation penalty.  The accumulator
threads the terrain, the `consumedIds` list and the processed entities. -/
def feedOne (lo : LifeOracle) (dt : ℚ) (all : List Entity)
    (st : TerrainData × List String × List Entity) (e : Entity) :
    TerrainData × List String × List Entity :=
  if e.energy ≥ e.maxEnergy then (st.1, st.2.1, st.2.2 ++ [e])
  else
    let gr : TerrainData × ℚ :=
      if e.diet = .HERBIVORE ∨ e.diet = .OMNIVORE then grazeResult dt st.1 e.type e.x e.z
      else (st.1, 0)
    let hunt : List String × ℚ :=
      if e.diet = .CARNIVORE ∨ e.diet = .OMNIVORE then
        match all.find? (fun p =>
          decide (p.id ≠ e.id) && decide (p.id ∉ st.2.1) &&
          decide (lo.sqrt ((p.x - e.x) ^ 2 + (p.z - e.z) ^ 2) < 2)) with
        | some prey => (st.2.1 ++ [prey.id], (50 : ℚ))
        | none => (st.2.1, -(1 * dt))
      else (st.2.1, 0)
    (gr.1, hunt.1, st.2.2 ++ [{ e with energy := e.energy + gr.2 + hunt.2 }])

/-- One parent's turn in the reproduction `forEach` (App.tsx lines 566-599):
energy above 90% of max and fewer than 10 entities in the 10-unit box spawn
one offspring; the parent's energy drops to 60%, and with probability 0.1 the
offspring founds a migrating pack 20-40 units away under a fresh packId. -/
def reproduceOne (lo : LifeOracle) (culled : List Entity)
    (st : List Entity × List Entity) (ie : ℕ × Entity) : List Entity × List Entity :=
  let parents := st.1
  let babies := st.2
  let i := ie.1
  let parent := ie.2
  if parent.energy > parent.maxEnergy * 0.9 then
    let localCount :=
      (culled.filter fun n =>
        decide (|n.x - parent.x| < 10) && decide (|n.z - parent.z| < 10)).length
    if localCount < 10 then
      let parent1 := { parent with energy := parent.energy * 0.6 }
      let isMig : Bool := decide (lo.migRoll i < 0.1)
      let r : ℚ := 20 + lo.rDraw i * 20
      let hx : ℚ := if isMig then parent.x + lo.angCos i * r else parent.homeX
      let hz : ℚ := if isMig then parent.z + lo.angSin i * r else parent.homeZ
      let pid : String := if isMig then lo.newPackId i else parent.packId
      let baby : Entity :=
        { parent1 with
          id := lo.babyId i
          x := parent.x + (lo.xJitter i - 0.5)
          z := parent.z + (lo.zJitter i - 0.5)
          homeX := hx, homeZ := hz
          packId := pid
          isMigrating := isMig
          age := 0
          energy := parent.maxEnergy * 0.5 }
      (parents ++ [parent1], babies ++ [baby])
    else (parents ++ [parent], babies)
  else (parents ++ [parent], babies)

/-- The main lifecycle pass (App.tsx lines 504-603): aging and the flat
0.1*dt metabolic cost, the feeding `forEach`, removal of consumed entities,
culling at energy <= 0 or age >= 3000, then reproduction gated on the
population being under 200.  Returns the surviving entities (parents then
babies, in array order) and the terrain with its feeding depletion. -/
def mainPass (lo : LifeOracle) (dt : ℚ) (t : TerrainData) (es : List Entity) :
    List Entity × TerrainData :=
  let aged := es.map fun e => { e with age := e.age + dt, energy := e.energy - 0.1 * dt }
  let fedSt := aged.foldl (feedOne lo dt aged) (t, [], [])
  let t1 := fedSt.1
  let consumed := fedSt.2.1
  let fed := fedSt.2.2
  let afterConsumed := fed.filter fun e => decide (e.id ∉ consumed)
  let culled := afterConsumed.filter fun e => decide (e.energy > 0) && decide (e.age < 3000)
  if culled.length < 200 then
    let rep := culled.enum.foldl (reproduceOne lo culled) ([], [])
    (rep.1 ++ rep.2, t1)
  else (culled, t1)

/-- Voxel structure tags, from types.ts. -/
inductive VoxelType where
  | PLANT | STRUCTURE | WATER_SOURCE
deriving DecidableEq

/-- A placed voxel structure (plants), from types.ts. -/
structure VoxelData where
  x : ℚ
  y : ℚ
  z : ℚ
  color : String
  type : VoxelType
deriving DecidableEq

/-- Evolution tree node, from types.ts / gameUtils.ts. -/
structure EvolutionNode where
  id : String
  title : String
  hint : String
  description : String
  icon : String
  parentId : Option String := none
  unlocksEntity : Option EntityType := none
  dustMultiplierBonus : Option ℚ := none

/-- `EVOLUTION_TREE` from gameUtils.ts. -/
def EVOLUTION_TREE : List EvolutionNode :=
  [ { id := "origin_water", title := "Primordial Soup",
      hint := "The island edges are your cradle.",
      description := "Life begins in the deep blue.", icon := "Waves",
      dustMultiplierBonus := some 0.1 },
    { id := "origin_land", title := "Fertile Soil", hint := "Find the dry land.",
      description := "Dry land provides a foundation.", icon := "Mountain",
      dustMultiplierBonus := some 0.1 },
    { id := "flora_algae", title := "Algae Blooms", hint := "Water needs time.",
      description := "Simple plant life.", icon := "Droplets",
      parentId := some "origin_water", dustMultiplierBonus := some 0.2 },
    { id := "flora_moss", title := "Vegetation",
      hint := "Ensure moisture touches land.",
      description := "Greenery covers the stone.", icon := "Sprout",
      parentId := some "origin_land", dustMultiplierBonus := some 0.2 },
    { id := "flora_grass", title := "Dense Pastures",
      hint := "Increase rainfall on flat land.",
      description := "Vast fields of grass.", icon := "Leaf",
      parentId := some "flora_moss", dustMultiplierBonus := some 0.5 },
    { id := "flora_tree", title := "Deep Roots",
      hint := "Maintain high moisture in grassy areas.",
      description := "Trees provide shelter.", icon := "TreePine",
      parentId := some "flora_grass", dustMultiplierBonus := some 1.0 },
    { id := "flora_forest", title := "Ancient Canopy",
      hint := "A dense, wet ecosystem.", description := "A thriving forest.",
      icon := "Trees", parentId := some "flora_tree",
      dustMultiplierBonus := some 2.0 },
    { id := "life_fish", title := "Ichthyology",
      hint := "Ensure ample ocean space.",
      description := "Fish now inhabit the waters.", icon := "Fish",
      parentId := some "origin_water", unlocksEntity := some .FISH },
    { id := "life_amphibian", title := "The First Step",
      hint := "Create wet shorelines (transition zones).",
      description := "Amphibians venture onto muddy banks.", icon := "Footprints",
      parentId := some "life_fish", unlocksEntity := some .AMPHIBIAN },
    { id := "life_reptile", title := "Scales & Sun",
      hint := "Create dry deserts (Low moisture land).",
      description := "Reptiles adapt to the dry land.", icon := "Sun",
      parentId := some "life_amphibian", unlocksEntity := some .REPTILE },
    { id := "life_mammal", title := "Warm Blood",
      hint := "Create rich, lush grasslands.",
      description := "Mammals roam the plains.", icon := "PawPrint",
      parentId := some "life_reptile", unlocksEntity := some .MAMMAL },
    { id := "life_bird", title := "Flight",
      hint := "Create high peaks and forests.", description := "Birds soar above.",
      icon := "Feather", parentId := some "life_reptile",
      unlocksEntity := some .BIRD } ]

/-- Sampled world statistics of `checkEvolutionCondition` (gameUtils.ts lines
255-275). -/
structure EvoStats where
  waterCount : ℕ
  landCount : ℕ
  vegCount : ℕ
  desertCount : ℕ
  mountainCount : ℕ

/-- The indices the evolution scan samples: every 20th cell of the flat
arrays (`for i = 0; i < heights.length; i += 20`). -/
def sampleIdx (t : TerrainData) : List ℕ :=
  (List.range ((t.size * t.size + 19) / 20)).map (· * 20)

/-- The sampled-statistics loop of `checkEvolutionCondition`. -/
def evoStats (t : TerrainData) : EvoStats :=
  (sampleIdx t).foldl
    (fun s i =>
      let h := t.heights i
      let m := t.moisture i
      let v := t.vegetation i
      if h < SEA_LEVEL then { s with waterCount := s.waterCount + 1 }
      else
        let s1 := { s with landCount := s.landCount + 1 }
        let s2 := if h > 5 then { s1 with mountainCount := s1.mountainCount + 1 } else s1
        let s3 := if v > 0.3 then { s2 with vegCount := s2.vegCount + 1 } else s2
        if m < 0.25 then { s3 with desertCount := s3.desertCount + 1 } else s3)
    ⟨0, 0, 0, 0, 0⟩

/-- `checkEvolutionCondition` from gameUtils.ts: per-node threshold predicate
over the sampled statistics, the live entity count and the plant count. -/
def checkEvolutionCondition (nodeId : String) (t : TerrainData)
    (entities : List Entity) (plants : List VoxelData) : Bool :=
  let s := evoStats t
  let plantCount := plants.length
  if nodeId = "origin_water" then true
  else if nodeId = "origin_land" then decide (s.landCount > 10)
  else if nodeId = "flora_algae" then decide (s.waterCount > 50)
  else if nodeId = "flora_moss" then decide (s.vegCount > 10)
  else if nodeId = "flora_grass" then decide (s.vegCount > 50)
  else if nodeId = "flora_tree" then
    decide (s.vegCount > 80) &&
      (List.range (t.size * t.size)).any (fun i => decide (t.moisture i > 0.7))
  else if nodeId = "flora_forest" then decide (plantCount ≥ 10)
  else if nodeId = "life_fish" then decide (s.waterCount > 100)
  else if nodeId = "life_amphibian" then
    decide (s.waterCount > 50) && decide (s.landCount > 50)
  else if nodeId = "life_reptile" then decide (s.desertCount > 10)
  else if nodeId = "life_mammal" then
    decide (s.vegCount > 30) && decide (entities.length > 5)
  else if nodeId = "life_bird" then
    decide (plantCount > 10) && decide (s.mountainCount > 10)
  else false

/-- One node of the evolution scan (App.tsx lines 606-615): skip unlocked
nodes, gate on the parent being in the pre-scan unlocked set, evaluate the
predicate, and collect the unlock with its notification. -/
def evoScanStep (unlocked : List String) (t : TerrainData) (es : List Entity)
    (ps : List VoxelData) (acc : List String × List (String × String × String))
    (node : EvolutionNode) : List String × List (String × String × String) :=
  if node.id ∈ unlocked then acc
  else if (match node.parentId with
           | none => true
           | some p => decide (p ∈ unlocked)) then
    if checkEvolutionCondition node.id t es ps then
      (acc.1 ++ [node.id], acc.2 ++ [("Evolution Unlocked!", node.title, node.icon)])
    else acc
  else acc

/-- The per-lifecycle-tick evolution scan: the new unlocks and their emitted
notifications, in tree-array order. -/
def evolutionScan (unlocked : List String) (t : TerrainData) (es : List Entity)
    (ps : List VoxelData) : List String × List (String × String × String) :=
  EVOLUTION_TREE.foldl (evoScanStep unlocked t es ps) ([], [])

/-- Result of one slow-cadence lifecycle tick. -/
structure TickResult where
  entities : List Entity
  terrain : TerrainData
  unlocked : List String
  notifications : List (String × String × String)

/-- One lifecycle tick (the 1000ms interval body, App.tsx lines 451-617):
spawning, the main aging/feeding/culling/reproduction pass, then the
evolution scan.  The scan reads the terrain mutated in place by feeding but
the entity ref captured before this tick's state updates, exactly as the
callback does. -/
def lifecycleTick (so : SpawnOracle) (lo : LifeOracle) (dt : ℚ)
    (unlocked : List String) (t : TerrainData) (es : List Entity)
    (plants : List VoxelData) : TickResult :=
  let es1 := spawnPhase so dt unlocked t es
  let mp := mainPass lo dt t es1
  let scan := evolutionScan unlocked mp.2 es plants
  { entities := mp.1
    terrain := mp.2
    unlocked := unlocked ++ scan.1
    notifications := scan.2 }

/-- The species constraint of target acquisition (App.tsx lines 347-359):
the -10 out-of-grid sentinel is rejected before the per-species band check
(fish need depth below sea level - 1, birds accept anything, amphibians a
band strictly within 2 of sea level, all others strictly above sea level). -/
def isValidTargetHeight (ty : EntityType) (th : ℚ) : Bool :=
  if th = -10 then false
  else
    match ty with
    | .FISH => decide (th < SEA_LEVEL - 1)
    | .BIRD => true
    | .AMPHIBIAN => decide (th > SEA_LEVEL - 2) && decide (th < SEA_LEVEL + 2)
    | _ => decide (th > SEA_LEVEL)

/-- The species constraint of the per-tick movement legality check (App.tsx
lines 391-400): `canMove` stays true unless the tentative height violates the
species condition (fish blocked above sea level - 0.5, amphibians outside the
closed band within 2 of sea level, non-birds below sea level). -/
def canMoveHeight (ty : EntityType) (nextH : ℚ) : Bool :=
  match ty with
  | .FISH => !decide (nextH > SEA_LEVEL - 0.5)
  | .AMPHIBIAN => !(decide (nextH < SEA_LEVEL - 2) || decide (nextH > SEA_LEVEL + 2))
  | .BIRD => true
  | _ => !decide (nextH < SEA_LEVEL)

/-- Tree-gating invariant of the unlocked set: every unlocked tree node with a
parent has that parent unlocked too. -/
def Gated (u : List String) : Prop :=
  ∀ n ∈ EVOLUTION_TREE, n.id ∈ u → ∀ p, n.parentId = some p → p ∈ u

/-- Unlocked sets reachable from the initial empty set by lifecycle-tick
evolution scans, over arbitrary world states. -/
inductive EvoReachable : List String → Prop where
  | base : EvoReachable []
  | step : ∀ {u}, EvoReachable u → ∀ (t : TerrainData) (es : List Entity)
      (ps : List VoxelData), EvoReachable (u ++ (evolutionScan u t es ps).1)

/-- All-zero terrain (deep ocean world) used as a concrete test world. -/
def tZero : TerrainData := ⟨128, fun _ => 0, fun _ => 0, fun _ => 0⟩

/-- All-zero terrain except a uniform vegetation of 0.2. -/
def tVeg : TerrainData := ⟨128, fun _ => 0, fun _ => 0, fun _ => 0.2⟩

/-- Flat shoreline-band terrain: height 1.2 (just above sea level), moisture
0.5, vegetation 0.6 everywhere. -/
def tFlat : TerrainData := ⟨128, fun _ => 6/5, fun _ => 1/2, fun _ => 3/5⟩

/-- Deep-water terrain: height -19 (far below sea level - 8) everywhere,
bare of vegetation. -/
def tDeep : TerrainData := ⟨128, fun _ => -19, fun _ => 0, fun _ => 0⟩

/-- A full-energy mammal herbivore at x = 20*i on the z = 0 line. -/
def mkMammal (i : ℕ) : Entity :=
  { id := "m", type := .MAMMAL, x := 20 * i, y := 0, z := 0, color := "",
    homeX := 20 * i, homeZ := 0, energy := 200, maxEnergy := 200, age := 0,
    diet := .HERBIVORE }

/-- 101 well-fed mammals spaced 20 units apart: below the 200 cap, each with
fewer than 10 neighbours in its 10-unit box. -/
def es101 : List Entity := (List.range 101).map mkMammal

/-- Spawn oracle whose chance roll (1) always fails the `rand < chance*dt`
gate at any `dt <= 2`, so no pack spawns. -/
def soNone : SpawnOracle := ⟨1, 0, 0, 0, fun _ => 0, fun _ => 0, "p", fun _ => "s"⟩

/-- Concrete lifecycle oracle: `sqrtQ` for distances, migration rolls that
never fire, centered offspring jitter, fresh ids "b"/"q". -/
def loZero : LifeOracle :=
  ⟨sqrtQ, fun _ => 1, fun _ => 1, fun _ => 0, fun _ => 0, fun _ => 1/2,
   fun _ => 1/2, fun _ => "b", fun _ => "q"⟩

/-- A reptile carnivore at the origin with energy 100 of 150. -/
def reptA : Entity :=
  { id := "A", type := .REPTILE, x := 0, y := 0, z := 0, color := "",
    homeX := 0, homeZ := 0, energy := 100, maxEnergy := 150, age := 0,
    diet := .CARNIVORE }

/-- A second identical reptile carnivore at the same spot. -/
def reptB : Entity := { reptA with id := "B" }

/-- A mammal herbivore whose energy is exactly 0 at the start of a pass. -/
def hungry : Entity := { mkMammal 0 with energy := 0 }

/-- Neutral weather used where a concrete `WeatherState` input is needed. -/
def wMild : WeatherState := ⟨1, .Spring, 0.5, 0.5, false, none⟩

/-- A geologic event at the origin with radius 2, strength 1 and one tick of
life left. -/
def evtDying : GeologicEvent := ⟨0, 0, 2, 1, 1⟩

/-- Transition-zone terrain: height 0.5, inside [sea level - 1, sea level]. -/
def tBand : TerrainData := ⟨128, fun _ => 1/2, fun _ => 0, fun _ => 3/10⟩

/-- The reptile carnivore at 80 of 150 energy (hunting cannot push it over
the 90% reproduction threshold). -/
def predW : Entity := { reptA with energy := 80 }

/-- A mammal herbivore at the same spot, prey for `predW`. -/
def preyW : Entity :=
  { id := "B", type := .MAMMAL, x := 0, y := 0, z := 0, color := "",
    homeX := 0, homeZ := 0, energy := 50, maxEnergy := 200, age := 0,
    diet := .HERBIVORE }

set_option maxRecDepth 1000000
set_option maxHeartbeats 4000000

/-! ## General fold lemmas -/

/-- Invariant preservation along a left fold. -/
theorem foldl_preserve {α β : Type} (P : α → Prop) (f : α → β → α) :
    ∀ (l : List β) (a : α), P a → (∀ a b, P a → P (f a b)) → P (l.foldl f a) := by
  intro l
  induction l with
  | nil => intro a ha _; exact ha
  | cons x xs ih => intro a ha hstep; exact ih (f a x) (hstep a x ha) hstep

/-- Right-to-left membership transfer along `List.Forall₂`. -/
theorem forall₂_mem_right {α β : Type} {R : α → β → Prop} :
    ∀ {l : List α} {l' : List β}, List.Forall₂ R l l' → ∀ b ∈ l', ∃ a ∈ l, R a b := by
  intro l l' h
  induction h with
  | nil => intro b hb; cases hb
  | cons hr _ ih =>
      intro b hb
      rcases List.mem_cons.mp hb with rfl | hb'
      · exact ⟨_, List.mem_cons_self _ _, hr⟩
      · rcases ih b hb' with ⟨a, ha, har⟩
        exact ⟨a, List.mem_cons_of_mem _ ha, har⟩

/-! ## C9: weather at tick 0 -/

/-- C9: `calculateWeather 0` reports year 1, season Spring, and no freak
event: the literal day-index hash `(0*9301+49297) % 100 = 97` fails the
`< 2` test, for every interpretation of the two sine oracles. -/
theorem calculateWeather_tick_zero (trendSin dailySin : ℚ → ℚ) :
    (calculateWeather trendSin dailySin 0).year = 1 ∧
    (calculateWeather trendSin dailySin 0).season = Season.Spring ∧
    (calculateWeather trendSin dailySin 0).isFreakEvent = false := by
  refine ⟨?_, ?_, ?_⟩ <;> norm_num [calculateWeather]

/-! ## C4: target validation vs movement legality -/

/-- C4 counterexample: at height 1/4 (between sea level - 1 and sea level -
0.5) the fish target-validation predicate rejects while the fish movement
legality check accepts, so the two species-constraint predicates are not the
same function. -/
theorem fish_target_vs_move_disagree :
    isValidTargetHeight .FISH (1/4) = false ∧ canMoveHeight .FISH (1/4) = true := by
  constructor <;> with_unfolding_all rfl

/-- C4 amended: target validation is at least as strict as the movement
check: every height a species accepts as a roam target is also legal to move
onto (the converse fails, e.g. fish movement tolerates heights in
[sea level - 1, sea level - 0.5] and the band edges differ for the others). -/
theorem target_valid_implies_can_move (ty : EntityType) (th : ℚ)
    (h : isValidTargetHeight ty th = true) : canMoveHeight ty th = true := by
  cases ty <;>
    simp only [isValidTargetHeight, canMoveHeight, SEA_LEVEL] at h ⊢ <;>
    rw [if_neg] at h <;>
    first
      | (simp only [decide_eq_true_eq, Bool.and_eq_true, Bool.not_eq_true',
          Bool.or_eq_false_iff, decide_eq_false_iff_not, not_lt] at h ⊢ <;>
          constructor <;> linarith [h.1, h.2])
      | (simp only [decide_eq_true_eq, Bool.not_eq_true',
          decide_eq_false_iff_not, not_lt] at h ⊢ <;> linarith)
      | rfl
      | (intro hc; rw [hc] at h; norm_num at h)

/-- C4 witness: a mammal target at height 2 is both a valid target and a
legal move. -/
theorem target_valid_implies_can_move_witness :
    isValidTargetHeight .MAMMAL 2 = true ∧ canMoveHeight .MAMMAL 2 = true :=
  ⟨by with_unfolding_all rfl,
   target_valid_implies_can_move .MAMMAL 2 (by with_unfolding_all rfl)⟩

/-! ## C5: geologic events crossing the zero-life boundary -/

/-- C5 counterexample: an event whose life crosses zero this tick (life 1,
dt 1) is removed without touching the terrain, although its per-tick
influence at its center cell would have been 1: the pass returns the terrain
unchanged, so the "last partial influence" the claim requires is never
applied. -/
theorem dying_event_applies_nothing :
    processGeologicEvents sqrtQ 1 tZero [evtDying] = (tZero, []) ∧
    (applyEventInfluence sqrtQ 1 tZero evtDying).heights 0 = 1 ∧
    tZero.heights 0 = 0 := by
  refine ⟨?_, ?_, ?_⟩ <;> with_unfolding_all rfl

/-- C5 amended: an event whose remaining life is at most the tick's elapsed
time contributes no height influence in the event-processing pass and is
dropped from the queue: processing any queue containing it equals processing
the queue without it. -/
theorem dying_event_dropped_without_influence (sq : ℚ → ℚ) (dt : ℚ)
    (t : TerrainData) (pre post : List GeologicEvent) (evt : GeologicEvent)
    (h : evt.life ≤ dt) :
    processGeologicEvents sq dt t (pre ++ evt :: post) =
      processGeologicEvents sq dt t (pre ++ post) := by
  have hstep : ∀ st, processGeologicEvent sq dt st evt = st := by
    intro st
    unfold processGeologicEvent
    rw [if_neg]
    simp only [not_lt]
    linarith
  unfold processGeologicEvents
  rw [List.foldl_append, List.foldl_cons, hstep, ← List.foldl_append]

/-- C5 witness: the dying radius-2 event is dropped from a singleton queue
with no effect, matching processing the empty queue. -/
theorem dying_event_dropped_without_influence_witness :
    processGeologicEvents sqrtQ 1 tZero ([] ++ evtDying :: []) =
      processGeologicEvents sqrtQ 1 tZero ([] ++ []) :=
  dying_event_dropped_without_influence sqrtQ 1 tZero [] [] evtDying
    (by norm_num [evtDying])

/-! ## C6: the marine vegetation bands -/

/-- C6 counterexample: a sampled cell at height -19, far below
sea level - 8, still receives the marine incremental growth (vegetation 0
becomes 1/50 under a successful roll) instead of the force-zero the claim
asserts for cells below the band. -/
theorem deep_cell_grows_below_claimed_band :
    tDeep.heights 0 < SEA_LEVEL - 8 ∧
    (growthUpdate wMild 1 0 0 0 tDeep).vegetation 0 = 1/50 ∧
    (1 : ℚ)/50 ≠ 0 := by
  refine ⟨by norm_num [tDeep, SEA_LEVEL], by with_unfolding_all rfl, by norm_num⟩

/-- C6 amended: the marine incremental-growth rule (with its 0.5 cap)
applies to every sampled cell strictly below sea level - 1, with no lower
depth bound, and vegetation is force-zeroed exactly on sampled cells in the
transition band [sea level - 1, sea level]. -/
theorem marine_growth_band_semantics (w : WeatherState) (dt roll : ℚ)
    (rx rz : ℕ) (t : TerrainData) :
    (t.heights (rz * MAP_SIZE + rx) < SEA_LEVEL - 1 →
      (growthUpdate w dt rx rz roll t).vegetation (rz * MAP_SIZE + rx) =
        min 0.5
          (if t.vegetation (rz * MAP_SIZE + rx) < 0.5 ∧ roll < 0.05 * dt
           then t.vegetation (rz * MAP_SIZE + rx) + 0.02 * dt
           else t.vegetation (rz * MAP_SIZE + rx))) ∧
    (SEA_LEVEL - 1 ≤ t.heights (rz * MAP_SIZE + rx) →
      t.heights (rz * MAP_SIZE + rx) ≤ SEA_LEVEL →
      (growthUpdate w dt rx rz roll t).vegetation (rz * MAP_SIZE + rx) = 0) := by
  have hupd : ∀ v, updF t.vegetation (rz * MAP_SIZE + rx) v (rz * MAP_SIZE + rx) = v := by
    intro v; simp [updF]
  constructor
  · intro hdeep
    have h1 : ¬ t.heights (rz * MAP_SIZE + rx) > SEA_LEVEL := by
      simp only [SEA_LEVEL] at hdeep ⊢; intro hc; linarith
    simp only [growthUpdate]
    rw [hupd, if_neg h1, if_pos hdeep]
  · intro hlo hhi
    have h1 : ¬ t.heights (rz * MAP_SIZE + rx) > SEA_LEVEL := by
      intro hc; exact absurd hhi (not_le.mpr hc)
    have h2 : ¬ t.heights (rz * MAP_SIZE + rx) < SEA_LEVEL - 1 := by
      intro hc; exact absurd hlo (not_le.mpr hc)
    simp only [growthUpdate]
    rw [hupd, if_neg h1, if_neg h2]

/-- C6 witness: a transition-band cell at height 0.5 is force-zeroed by a
growth sample. -/
theorem marine_growth_band_semantics_witness :
    (growthUpdate wMild 1 0 0 0 tBand).vegetation 0 = 0 :=
  (marine_growth_band_semantics wMild 1 0 0 0 tBand).2
    (by norm_num [tBand, SEA_LEVEL]) (by norm_num [tBand, SEA_LEVEL])

/-! ## C10: the root node unlocks unconditionally -/

/-- Membership in an accumulator survives the rest of the evolution-scan
fold (each step only appends). -/
theorem evoScanFold_mem (u : List String) (t : TerrainData) (es : List Entity)
    (ps : List VoxelData) :
    ∀ (l : List EvolutionNode) (acc : List String × List (String × String × String))
      (a : String) (n : String × String × String),
      a ∈ acc.1 → n ∈ acc.2 →
      a ∈ (l.foldl (evoScanStep u t es ps) acc).1 ∧
      n ∈ (l.foldl (evoScanStep u t es ps) acc).2 := by
  intro l
  induction l with
  | nil => intro acc a n ha hn; exact ⟨ha, hn⟩
  | cons node rest ih =>
      intro acc a n ha hn
      rw [List.foldl_cons]
      refine ih _ a n ?_ ?_ <;>
        · unfold evoScanStep
          split
          · assumption
          · split
            · split
              · simp only [List.mem_append]
                left; assumption
              · assumption
            · assumption

/-- C10: the root predicate `origin_water` holds in every world state, so on
a first lifecycle tick (empty unlocked set) it is always unlocked and its
notification emitted, whatever the terrain, entities, plants, oracles and
time scale. -/
theorem origin_water_always_first_tick (so : SpawnOracle) (lo : LifeOracle)
    (dt : ℚ) (t : TerrainData) (es : List Entity) (plants : List VoxelData) :
    checkEvolutionCondition "origin_water" t es plants = true ∧
    "origin_water" ∈ (lifecycleTick so lo dt [] t es plants).unlocked ∧
    ("Evolution Unlocked!", "Primordial Soup", "Waves") ∈
      (lifecycleTick so lo dt [] t es plants).notifications := by
  have hbase :
      ∀ (t' : TerrainData) (es' : List Entity) (ps' : List VoxelData),
        "origin_water" ∈ (evolutionScan [] t' es' ps').1 ∧
        ("Evolution Unlocked!", "Primordial Soup", "Waves") ∈
          (evolutionScan [] t' es' ps').2 := by
    intro t' es' ps'
    unfold evolutionScan EVOLUTION_TREE
    rw [List.foldl_cons]
    refine evoScanFold_mem [] t' es' ps' _ _ "origin_water"
      ("Evolution Unlocked!", "Primordial Soup", "Waves") ?_ ?_ <;>
      simp [evoScanStep, checkEvolutionCondition]
  refine ⟨rfl, ?_, ?_⟩
  · simp only [lifecycleTick, List.nil_append]
    exact (hbase _ _ _).1
  · simp only [lifecycleTick]
    exact (hbase _ _ _).2

/-! ## C8: evolution unlocking respects tree gating -/

/-- Node ids determine parents in the static evolution tree. -/
theorem tree_parent_unique :
    ∀ n₁ ∈ EVOLUTION_TREE, ∀ n₂ ∈ EVOLUTION_TREE, n₁.id = n₂.id →
      n₁.parentId = n₂.parentId := by
  intro n₁ h₁ n₂ h₂ heq
  fin_cases h₁ <;> fin_cases h₂ <;> simp_all

/-- Through the scan fold, every collected unlock id belonging to a tree node
has that node's parent (when any) already in the pre-scan unlocked set. -/
theorem evoScanFold_gate (u : List String) (t : TerrainData) (es : List Entity)
    (ps : List VoxelData) :
    ∀ (l : List EvolutionNode) (acc : List String × List (String × String × String)),
      (∀ n ∈ EVOLUTION_TREE, n.id ∈ acc.1 → ∀ p, n.parentId = some p → p ∈ u) →
      (∀ m ∈ l, m ∈ EVOLUTION_TREE) →
      ∀ n ∈ EVOLUTION_TREE, n.id ∈ (l.foldl (evoScanStep u t es ps) acc).1 →
        ∀ p, n.parentId = some p → p ∈ u := by
  intro l
  induction l with
  | nil => intro acc hacc _ n hn hmem p hp; exact hacc n hn hmem p hp
  | cons m rest ih =>
      intro acc hacc hsub
      rw [List.foldl_cons]
      refine ih _ ?_ (fun x hx => hsub x (List.mem_cons_of_mem _ hx))
      intro n hn hmem p hp
      have hm : m ∈ EVOLUTION_TREE := hsub m (List.mem_cons_self _ _)
      revert hmem
      unfold evoScanStep
      split
      · exact fun hmem => hacc n hn hmem p hp
      · split
        · next hgate =>
            split
            · intro hmem
              rcases List.mem_append.mp hmem with h1 | h2
              · exact hacc n hn h1 p hp
              · have hid : n.id = m.id := List.mem_singleton.mp h2
                have hpar := tree_parent_unique n hn m hm hid
                have hmp : m.parentId = some p := by rw [← hpar]; exact hp
                rw [hmp] at hgate
                simpa using hgate
            · intro hmem; exact hacc n hn hmem p hp
        · intro hmem; exact hacc n hn hmem p hp

/-- C8: in every unlocked set reachable by lifecycle-tick evolution scans
from the initial empty set, each unlocked non-root tree node has its parent
unlocked as well — the gating check against the pre-scan set means nodes that
become unlockable mid-scan must wait for a later tick. -/
theorem unlocked_set_respects_gating {u : List String} (h : EvoReachable u) :
    Gated u := by
  induction h with
  | base => intro n _ hmem _ _; cases hmem
  | step _ t es ps ih =>
      intro n hn hmem p hp
      rcases List.mem_append.mp hmem with h1 | h2
      · exact List.mem_append_left _ (ih n hn h1 p hp)
      · refine List.mem_append_left _ ?_
        exact evoScanFold_gate _ t es ps EVOLUTION_TREE ([], [])
          (fun n' _ hmem' => by cases hmem') (fun m hm => hm) n hn h2 p hp

/-- C8 witness: the set reached by one scan of the deep-ocean world from the
empty set is gated. -/
theorem unlocked_set_respects_gating_witness :
    Gated ([] ++ (evolutionScan [] tZero [] []).1) :=
  unlocked_set_respects_gating (EvoReachable.step EvoReachable.base tZero [] [])

/-! ## C3: moisture/vegetation ranges under terrain operations -/

/-- Bounds are preserved by a pointwise update within the same bounds. -/
theorem updF_bounds {f : ℕ → ℚ} {a b : ℚ} (hf : ∀ j, a ≤ f j ∧ f j ≤ b)
    {k : ℕ} {v : ℚ} (hv : a ≤ v ∧ v ≤ b) :
    ∀ j, a ≤ updF f k v j ∧ updF f k v j ≤ b := by
  intro j
  unfold updF
  split
  · exact hv
  · exact hf j

/-- One brush cell keeps moisture and vegetation in [0,1]. -/
theorem InvWeak_brushCell (sq : ℚ → ℚ) (mode : GameMode) (r : ℕ) (cx cz dx dz : ℤ)
    (t : TerrainData) (h : InvWeak t) : InvWeak (brushCell sq mode r cx cz dx dz t) := by
  have hrpos : (0 : ℚ) < (r : ℚ) + 1 := by positivity
  unfold brushCell
  split <;> dsimp only
  · split
    · exact h
    · split
      · exact h
      · exact fun i => h i
  · split
    · exact h
    · split
      · exact h
      · exact fun i => h i
  · split
    · exact h
    · split
      · exact h
      · next hnd =>
          have hdist : sq ((dx * dx + dz * dz : ℤ) : ℚ) ≤ (r : ℚ) := not_lt.mp hnd
          have hfall : 0 ≤ 1 - sq ((dx * dx + dz * dz : ℤ) : ℚ) / ((r : ℚ) + 1) := by
            rw [sub_nonneg, div_le_one hrpos]
            linarith
          intro i
          refine ⟨?_, ?_, (h i).2.2.1, (h i).2.2.2⟩ <;>
          · have := updF_bounds (f := t.moisture) (a := 0) (b := 1)
              (fun j => ⟨(h j).1, (h j).2.1⟩)
              (k := (((cz + dz) * MAP_SIZE + (cx + dx)).toNat))
              (v := min 1 (t.moisture (((cz + dz) * MAP_SIZE + (cx + dx)).toNat)
                + 0.1 * (1 - sq ((dx * dx + dz * dz : ℤ) : ℚ) / ((r : ℚ) + 1))))
              ⟨le_min (by norm_num)
                (by have := (h (((cz + dz) * MAP_SIZE + (cx + dx)).toNat)).1; nlinarith),
               min_le_left _ _⟩ i
            first
              | exact this.1
              | exact this.2
  · split
    · exact h
    · split
      · exact h
      · next hnd =>
          have hdist : sq ((dx * dx + dz * dz : ℤ) : ℚ) ≤ (r : ℚ) := not_lt.mp hnd
          have hfall : 0 ≤ 1 - sq ((dx * dx + dz * dz : ℤ) : ℚ) / ((r : ℚ) + 1) := by
            rw [sub_nonneg, div_le_one hrpos]
            linarith
          intro i
          refine ⟨?_, ?_, (h i).2.2.1, (h i).2.2.2⟩ <;>
          · have := updF_bounds (f := t.moisture) (a := 0) (b := 1)
              (fun j => ⟨(h j).1, (h j).2.1⟩)
              (k := (((cz + dz) * MAP_SIZE + (cx + dx)).toNat))
              (v := max 0 (t.moisture (((cz + dz) * MAP_SIZE + (cx + dx)).toNat)
                - 0.1 * (1 - sq ((dx * dx + dz * dz : ℤ) : ℚ) / ((r : ℚ) + 1))))
              ⟨le_max_left _ _,
               max_le (by norm_num)
                (by have := (h (((cz + dz) * MAP_SIZE + (cx + dx)).toNat)).2.1; nlinarith)⟩ i
            first
              | exact this.1
              | exact this.2
  · split
    · exact h
    · split
      · exact h
      · exact h

/-- A whole brush stroke keeps moisture and vegetation in [0,1]. -/
theorem InvWeak_handleInteract (sq : ℚ → ℚ) (mode : GameMode) (bs : ℕ) (px pz : ℚ)
    (t : TerrainData) (h : InvWeak t) : InvWeak (handleInteract sq mode bs px pz t) := by
  unfold handleInteract
  dsimp only
  split
  · exact h
  · refine foldl_preserve InvWeak _ _ _ h ?_
    intro t1 dx h1
    refine foldl_preserve InvWeak _ _ _ h1 ?_
    intro t2 dz h2
    exact InvWeak_brushCell sq mode _ _ _ dx dz t2 h2

/-- A growth sample keeps moisture and vegetation in [0,1] whenever the time
scale is positive. -/
theorem InvWeak_growthUpdate (w : WeatherState) (dt : ℚ) (rx rz : ℕ) (roll : ℚ)
    (t : TerrainData) (hdt : 0 < dt) (h : InvWeak t) :
    InvWeak (growthUpdate w dt rx rz roll t) := by
  unfold growthUpdate
  intro i
  refine ⟨(h i).1, (h i).2.1, ?_⟩
  have hv0 := (h (rz * MAP_SIZE + rx)).2.2.1
  refine (updF_bounds (a := 0) (b := 1) (fun j => (h j).2.2) ⟨?_, ?_⟩ i)
  · split
    · dsimp only
      split
      · norm_num
      · exact le_max_left _ _
    · split
      · dsimp only
        refine le_min (by norm_num) ?_
        split
        · linarith
        · exact hv0
      · exact le_refl 0
  · split
    · dsimp only
      split
      · norm_num
      · exact max_le (by norm_num) (min_le_left _ _)
    · split
      · dsimp only
        exact le_trans (min_le_left _ _) (by norm_num)
      · norm_num

/-- A feeding depletion keeps moisture and vegetation in [0,1]. -/
theorem InvWeak_graze (dt : ℚ) (t : TerrainData) (ty : EntityType) (ex ez : ℚ)
    (h : InvWeak t) : InvWeak (grazeResult dt t ty ex ez).1 := by
  unfold grazeResult
  dsimp only
  split
  · rw [apply_ite Prod.fst]
    split
    · rw [apply_ite Prod.fst]
      dsimp only
      split
      · next hv =>
          intro i
          refine ⟨(h i).1, (h i).2.1, ?_⟩
          refine updF_bounds (a := 0) (b := 1) (fun j => (h j).2.2)
            ⟨by linarith, ?_⟩ i
          have := (h ((⌊ez + (MAP_SIZE : ℚ) / 2⌋ * MAP_SIZE + ⌊ex + (MAP_SIZE : ℚ) / 2⌋).toNat)).2.2.2
          linarith
      · exact h
    · rw [apply_ite Prod.fst]
      dsimp only
      split
      · next hv =>
          intro i
          refine ⟨(h i).1, (h i).2.1, ?_⟩
          refine updF_bounds (a := 0) (b := 1) (fun j => (h j).2.2)
            ⟨by linarith, ?_⟩ i
          have := (h ((⌊ez + (MAP_SIZE : ℚ) / 2⌋ * MAP_SIZE + ⌊ex + (MAP_SIZE : ℚ) / 2⌋).toNat)).2.2.2
          linarith
      · exact h
  · exact h

/-- One well-formed terrain operation keeps moisture and vegetation in
[0,1]. -/
theorem InvWeak_applyOp (sq : ℚ → ℚ) (op : TerrainOp) (t : TerrainData)
    (hop : WFOp op) (h : InvWeak t) : InvWeak (applyOp sq t op) := by
  cases op with
  | brush mode bs px pz => exact InvWeak_handleInteract sq mode bs px pz t h
  | growth w dt rx rz roll => exact InvWeak_growthUpdate w dt rx rz roll t hop h
  | graze dt ty ex ez => exact InvWeak_graze dt t ty ex ez h

/-- C3 amended: under every sequence of brush edits, growth samples and
feeding depletions (with the positive time scale the loops guarantee),
moisture and vegetation stay within [0,1] at every cell.  The
height-conditioned refinement of the original claim (vegetation at most 0.5
under water) is not preserved: height brushes move cells across sea level
without touching vegetation. -/
theorem moisture_vegetation_stay_in_unit_range (sq : ℚ → ℚ) (ops : List TerrainOp)
    (t : TerrainData) (hwf : ∀ op ∈ ops, WFOp op) (hinv : InvWeak t) :
    InvWeak (applyOps sq ops t) := by
  induction ops generalizing t with
  | nil => exact hinv
  | cons op rest ih =>
      unfold applyOps
      rw [List.foldl_cons]
      exact ih (applyOp sq t op)
        (fun o ho => hwf o (List.mem_cons_of_mem _ ho))
        (InvWeak_applyOp sq op t (hwf op (List.mem_cons_self _ _)) hinv)

/-- C3 witness: the unit-range invariant survives a lower-brush stroke
followed by a growth sample on the flat shoreline world. -/
theorem moisture_vegetation_stay_in_unit_range_witness :
    InvWeak (applyOps sqrtQ
      [.brush .LOWER 3 0 0, .growth wMild 1 0 0 0] tFlat) := by
  refine moisture_vegetation_stay_in_unit_range sqrtQ _ tFlat ?_ ?_
  · intro op hop
    rcases List.mem_cons.mp hop with rfl | hop'
    · exact trivial
    · rcases List.mem_cons.mp hop' with rfl | h
      · exact one_pos
      · cases h
  · intro i
    refine ⟨by norm_num [tFlat], by norm_num [tFlat], by norm_num [tFlat],
      by norm_num [tFlat]⟩

/-- C3 counterexample: the flat shoreline world satisfies the claimed
height-conditioned ranges, but one LOWER brush stroke at its center drops the
center cell below sea level with vegetation of 0.6 > 0.5, violating the
claimed underwater bound. -/
theorem lower_brush_breaks_underwater_bound :
    InvC3 tFlat ∧ ¬ InvC3 (applyOps sqrtQ [.brush .LOWER 3 0 0] tFlat) := by
  constructor
  · intro i _
    refine ⟨⟨by norm_num [tFlat], by norm_num [tFlat]⟩,
      fun _ => ⟨by norm_num [tFlat], by norm_num [tFlat]⟩, fun hc => ?_⟩
    norm_num [tFlat, SEA_LEVEL] at hc
  · intro hciv
    have hsize : (applyOps sqrtQ [.brush .LOWER 3 0 0] tFlat).size = 128 := by
      with_unfolding_all rfl
    have h8256 := hciv 8256 (by rw [hsize]; norm_num)
    have hh : (applyOps sqrtQ [.brush .LOWER 3 0 0] tFlat).heights 8256 = 7/10 := by
      with_unfolding_all rfl
    have hv : (applyOps sqrtQ [.brush .LOWER 3 0 0] tFlat).vegetation 8256 = 3/5 := by
      with_unfolding_all rfl
    have := (h8256.2.2 (by rw [hh, SEA_LEVEL]; norm_num)).2
    rw [hv] at this
    norm_num at this

/-! ## Lifecycle pass structure lemmas -/

/-- One feeding turn appends exactly its entity, changed only in energy. -/
theorem feedOne_done_shape (lo : LifeOracle) (dt : ℚ) (all : List Entity)
    (st : TerrainData × List String × List Entity) (e : Entity) :
    ∃ en, (feedOne lo dt all st e).2.2 = st.2.2 ++ [{ e with energy := en }] := by
  unfold feedOne
  split
  · exact ⟨e.energy, rfl⟩
  · exact ⟨_, rfl⟩

/-- The feeding fold emits the processed entities in order, each changed only
in energy. -/
theorem feedFold_shape (lo : LifeOracle) (dt : ℚ) (all : List Entity) :
    ∀ (l : List Entity) (t : TerrainData) (cs : List String) (ds : List Entity),
      ∃ out, (l.foldl (feedOne lo dt all) (t, cs, ds)).2.2 = ds ++ out ∧
        List.Forall₂ (fun a b => ∃ en, b = { a with energy := en }) l out := by
  intro l
  induction l with
  | nil => intro t cs ds; exact ⟨[], by simp, List.Forall₂.nil⟩
  | cons e rest ih =>
      intro t cs ds
      rw [List.foldl_cons]
      obtain ⟨en, hen⟩ := feedOne_done_shape lo dt all (t, cs, ds) e
      obtain ⟨out, hout, hrel⟩ :=
        ih (feedOne lo dt all (t, cs, ds) e).1
          (feedOne lo dt all (t, cs, ds) e).2.1
          (feedOne lo dt all (t, cs, ds) e).2.2
      refine ⟨{ e with energy := en } :: out, ?_, List.Forall₂.cons ⟨en, rfl⟩ hrel⟩
      calc (rest.foldl (feedOne lo dt all) (feedOne lo dt all (t, cs, ds) e)).2.2
          = (feedOne lo dt all (t, cs, ds) e).2.2 ++ out := hout
        _ = (ds ++ [{ e with energy := en }]) ++ out := by rw [hen]
        _ = ds ++ ({ e with energy := en } :: out) := by simp

/-- Length form of the feeding-fold shape. -/
theorem feedFold_length (lo : LifeOracle) (dt : ℚ) (all : List Entity)
    (l : List Entity) (t : TerrainData) (cs : List String) (ds : List Entity) :
    ((l.foldl (feedOne lo dt all) (t, cs, ds)).2.2).length = ds.length + l.length := by
  obtain ⟨out, hout, hrel⟩ := feedFold_shape lo dt all l t cs ds
  rw [hout, List.length_append, hrel.length_eq]

/-- The second component of an enumerated pair is a member of the list. -/
theorem snd_mem_of_mem_enumFrom {α : Type} :
    ∀ (l : List α) (n : ℕ) (p : ℕ × α), p ∈ l.enumFrom n → p.2 ∈ l := by
  intro l
  induction l with
  | nil => intro n p h; cases h
  | cons a as ih =>
      intro n p h
      rw [List.enumFrom] at h
      rcases List.mem_cons.mp h with rfl | h'
      · exact List.mem_cons_self _ _
      · exact List.mem_cons_of_mem _ (ih (n + 1) p h')

/-- One reproduction turn appends the parent (possibly at 60% energy) and at
most one offspring carrying a fresh oracle id. -/
theorem reproduceOne_shape (lo : LifeOracle) (culled : List Entity)
    (st : List Entity × List Entity) (ie : ℕ × Entity) :
    ((reproduceOne lo culled st ie).1 = st.1 ++ [ie.2] ∨
      (reproduceOne lo culled st ie).1 =
        st.1 ++ [{ ie.2 with energy := ie.2.energy * 0.6 }]) ∧
    ((reproduceOne lo culled st ie).2 = st.2 ∨
      ∃ b, (reproduceOne lo culled st ie).2 = st.2 ++ [b] ∧ b.id = lo.babyId ie.1) := by
  unfold reproduceOne
  dsimp only
  split
  · split
    · exact ⟨Or.inr rfl, Or.inr ⟨_, rfl, rfl⟩⟩
    · exact ⟨Or.inl rfl, Or.inl rfl⟩
  · exact ⟨Or.inl rfl, Or.inl rfl⟩

/-- The reproduction fold appends one parent per processed pair (ids, ages
and energy positivity preserved) and at most one offspring per pair, each
offspring carrying a fresh oracle id. -/
theorem reproFold_shape (lo : LifeOracle) (culled : List Entity) :
    ∀ (l : List (ℕ × Entity)) (ps bs : List Entity),
      ∃ pout bout,
        (l.foldl (reproduceOne lo culled) (ps, bs)).1 = ps ++ pout ∧
        (l.foldl (reproduceOne lo culled) (ps, bs)).2 = bs ++ bout ∧
        List.Forall₂ (fun (ie : ℕ × Entity) b =>
          b.id = ie.2.id ∧ b.age = ie.2.age ∧ (0 < ie.2.energy → 0 < b.energy)) l pout ∧
        bout.length ≤ l.length ∧
        ∀ b ∈ bout, ∃ i, b.id = lo.babyId i := by
  intro l
  induction l with
  | nil =>
      intro ps bs
      exact ⟨[], [], by simp, by simp, List.Forall₂.nil, by simp, by simp⟩
  | cons ie rest ih =>
      intro ps bs
      rw [List.foldl_cons]
      obtain ⟨hp, hb⟩ := reproduceOne_shape lo culled (ps, bs) ie
      obtain ⟨pout, bout, h1, h2, h3, h4, h5⟩ :=
        ih (reproduceOne lo culled (ps, bs) ie).1 (reproduceOne lo culled (ps, bs) ie).2
      have hel : ∀ hd, (reproduceOne lo culled (ps, bs) ie).1 = ps ++ [hd] →
          (hd.id = ie.2.id ∧ hd.age = ie.2.age ∧ (0 < ie.2.energy → 0 < hd.energy)) →
          ∃ pout' bout',
            (rest.foldl (reproduceOne lo culled) (reproduceOne lo culled (ps, bs) ie)).1 =
              ps ++ pout' ∧
            (rest.foldl (reproduceOne lo culled) (reproduceOne lo culled (ps, bs) ie)).2 =
              bs ++ bout' ∧
            List.Forall₂ (fun (ie' : ℕ × Entity) b =>
              b.id = ie'.2.id ∧ b.age = ie'.2.age ∧ (0 < ie'.2.energy → 0 < b.energy))
              (ie :: rest) pout' ∧
            bout'.length ≤ (ie :: rest).length ∧
            ∀ b ∈ bout', ∃ i, b.id = lo.babyId i := by
        intro hd hhd hrel
        rcases hb with hb0 | ⟨b, hb1, hbid⟩
        · refine ⟨hd :: pout, bout, ?_, ?_, List.Forall₂.cons hrel h3, ?_, h5⟩
          · rw [h1, hhd]; simp
          · rw [h2, hb0]
          · simpa using Nat.le_succ_of_le h4
        · refine ⟨hd :: pout, b :: bout, ?_, ?_, List.Forall₂.cons hrel h3, ?_, ?_⟩
          · rw [h1, hhd]; simp
          · rw [h2, hb1]; simp
          · simpa using Nat.succ_le_succ h4
          · intro b' hb'
            rcases List.mem_cons.mp hb' with rfl | hb''
            · exact ⟨ie.1, hbid⟩
            · exact h5 b' hb''
      rcases hp with hp0 | hp1
      · exact hel ie.2 hp0 ⟨rfl, rfl, fun hx => hx⟩
      · refine hel { ie.2 with energy := ie.2.energy * 0.6 } hp1 ⟨rfl, rfl, ?_⟩
        intro hx
        have : (0 : ℚ) < 0.6 := by norm_num
        calc (0 : ℚ) = ie.2.energy * 0 := by ring
          _ < ie.2.energy * 0.6 := by exact mul_lt_mul_of_pos_left this hx

/-- The reproduction phase at most doubles the population. -/
theorem reproFold_length (lo : LifeOracle) (culled : List Entity) :
    ((culled.enum.foldl (reproduceOne lo culled) ([], [])).1 ++
      (culled.enum.foldl (reproduceOne lo culled) ([], [])).2).length ≤
      2 * culled.length := by
  obtain ⟨pout, bout, h1, h2, h3, h4, h5⟩ := reproFold_shape lo culled culled.enum [] []
  rw [h1, h2]
  simp only [List.nil_append, List.length_append]
  have hpl : pout.length = culled.length := by
    rw [← h3.length_eq, List.enum_length]
  have hbl : bout.length ≤ culled.length := by
    calc bout.length ≤ culled.enum.length := h4
      _ = culled.length := List.enum_length
  omega

/-- The spawning block never lifts the population above the hard cap of 200:
an appended pack is truncated by the `slice(0, 200)` safety check. -/
theorem spawnPhase_length (so : SpawnOracle) (dt : ℚ) (u : List String)
    (t : TerrainData) (es : List Entity) (h : es.length ≤ 200) :
    (spawnPhase so dt u t es).length ≤ 200 := by
  unfold spawnPhase
  dsimp only
  split <;>
    (split
     · split
       · exact h
       · simp only [List.length_take]
         exact min_le_left _ _
     · exact h)

/-- The main lifecycle pass at most doubles a sub-cap population, and its
reproduction phase only runs below the cap, so 398 bounds the outcome. -/
theorem mainPass_length (lo : LifeOracle) (dt : ℚ) (t : TerrainData)
    (es : List Entity) (h : es.length ≤ 200) :
    ((mainPass lo dt t es).1).length ≤ 398 := by
  unfold mainPass
  dsimp only
  split
  · next hlt =>
      refine le_trans (reproFold_length lo _) ?_
      omega
  · next hge =>
      refine le_trans (List.length_filter_le _ _) ?_
      refine le_trans (List.length_filter_le _ _) ?_
      rw [feedFold_length]
      simp only [List.length_nil, List.length_map, Nat.zero_add]
      omega

/-- Members of the culled list of the main pass: each survivor corresponds to
a pre-pass entity with the same id, aged below the 3000 ceiling after this
tick, and carries positive energy. -/
theorem culled_mem_spec (lo : LifeOracle) (dt : ℚ) (t : TerrainData)
    (es : List Entity) (p1 : Entity → Bool) :
    ∀ q ∈ (((es.map fun e =>
          { e with age := e.age + dt, energy := e.energy - 0.1 * dt }).foldl
            (feedOne lo dt (es.map fun e =>
              { e with age := e.age + dt, energy := e.energy - 0.1 * dt }))
            (t, [], [])).2.2.filter p1).filter
          (fun e => decide (e.energy > 0) && decide (e.age < 3000)),
      ∃ a ∈ es, q.id = a.id ∧ a.age + dt < 3000 ∧ 0 < q.energy := by
  intro q hq
  obtain ⟨hq1, hq2⟩ := List.mem_filter.mp hq
  obtain ⟨hq3, _⟩ := List.mem_filter.mp hq1
  rw [Bool.and_eq_true, decide_eq_true_eq, decide_eq_true_eq] at hq2
  obtain ⟨out, hout, hrel⟩ := feedFold_shape lo dt _ _ t [] []
  rw [hout, List.nil_append] at hq3
  obtain ⟨a', ha', en, hen⟩ := forall₂_mem_right hrel q hq3
  obtain ⟨a, ha, haeq⟩ := List.mem_map.mp ha'
  subst hen
  refine ⟨a, ha, ?_, ?_, hq2.1⟩
  · rw [← haeq]
  · have : a'.age = a.age + dt := by rw [← haeq]
    rw [← this]
    exact hq2.2

/-- Every member of the main pass's surviving collection is either a pre-pass
entity's updated form (same id, final age below 3000, positive energy) or a
fresh offspring whose id comes from the baby-id oracle. -/
theorem mainPass_mem_spec (lo : LifeOracle) (dt : ℚ) (t : TerrainData)
    (es : List Entity) :
    ∀ x ∈ (mainPass lo dt t es).1,
      (∃ a ∈ es, x.id = a.id ∧ a.age + dt < 3000 ∧ 0 < x.energy) ∨
      (∃ i, x.id = lo.babyId i) := by
  unfold mainPass
  dsimp only
  split
  · next hlt =>
      intro x hx
      obtain ⟨pout, bout, h1, h2, h3, h4, h5⟩ := reproFold_shape lo _ (List.enum _) [] []
      rcases List.mem_append.mp hx with hxp | hxb
      · rw [h1, List.nil_append] at hxp
        obtain ⟨ie, hie, hid, hage, hen⟩ := forall₂_mem_right h3 x hxp
        have hq : ie.2 ∈ _ := snd_mem_of_mem_enumFrom _ 0 ie hie
        obtain ⟨a, ha, haid, haage, haen⟩ := culled_mem_spec lo dt t es _ ie.2 hq
        exact Or.inl ⟨a, ha, hid.trans haid, haage, hen haen⟩
      · rw [h2, List.nil_append] at hxb
        exact Or.inr (h5 x hxb)
  · intro x hx
    obtain ⟨a, ha, haid, haage, haen⟩ := culled_mem_spec lo dt t es _ x hx
    exact Or.inl ⟨a, ha, haid, haage, haen⟩

/-! ## C1: the population cap -/

/-- C1 counterexample: 101 well-fed, well-spaced mammals (at most the 200
cap) finish one lifecycle tick at population 202: the reproduction phase
checks the cap only before starting, then lets every parent breed. -/
theorem population_cap_exceeded_after_tick :
    es101.length ≤ 200 ∧
    200 < ((lifecycleTick soNone loZero 1 [] tZero es101 []).entities).length := by
  constructor
  · have h : es101.length = 101 := by simp [es101]
    omega
  · have h : ((lifecycleTick soNone loZero 1 [] tZero es101 []).entities).length = 202 := by
      with_unfolding_all rfl
    omega

/-- C1 amended: the spawning phase respects the hard cap of 200, and one
full lifecycle tick from a population of at most 200 stays at or below 398
(reproduction starts only below 200 and adds at most one offspring per
survivor, but does not re-check the cap, so the post-tick population can
exceed 200 up to that bound). -/
theorem population_bounds_after_tick (so : SpawnOracle) (lo : LifeOracle)
    (dt : ℚ) (u : List String) (t : TerrainData) (es : List Entity)
    (ps : List VoxelData) (h : es.length ≤ 200) :
    (spawnPhase so dt u t es).length ≤ 200 ∧
    ((lifecycleTick so lo dt u t es ps).entities).length ≤ 398 := by
  refine ⟨spawnPhase_length so dt u t es h, ?_⟩
  simp only [lifecycleTick]
  exact mainPass_length lo dt t _ (spawnPhase_length so dt u t es h)

/-- C1 witness: the bounds hold for the 101-mammal world. -/
theorem population_bounds_after_tick_witness :
    (spawnPhase soNone 1 [] tZero es101).length ≤ 200 ∧
    ((lifecycleTick soNone loZero 1 [] tZero es101 []).entities).length ≤ 398 :=
  population_bounds_after_tick soNone loZero 1 [] tZero es101 []
    (by simp [es101])

/-! ## C2: culling of starved and aged entities -/

/-- C2 counterexample: a herbivore whose energy is exactly 0 at the start of
the pass grazes a vegetated cell mid-pass (+10 energy) and survives with
energy 9.9, so energy at most 0 at the start does not guarantee removal. -/
theorem zero_energy_herbivore_survives_pass :
    hungry.energy ≤ 0 ∧
    (mainPass loZero 1 tVeg [hungry]).1.map Entity.id = [hungry.id] ∧
    (mainPass loZero 1 tVeg [hungry]).1.map Entity.energy = [99/10] := by
  refine ⟨by norm_num [hungry, mkMammal], ?_, ?_⟩ <;> with_unfolding_all rfl

/-- C2 amended: an entity aged at least 3000 at the start of the pass is
always absent afterwards (offspring carry fresh oracle ids); an entity whose
energy is at most 0 at the start is not guaranteed removal — but any survivor
carrying its id must have been fed back to strictly positive energy during
the pass. -/
theorem aged_entities_always_culled (lo : LifeOracle) (dt : ℚ)
    (t : TerrainData) (es : List Entity) (e : Entity) (hmem : e ∈ es)
    (hnodup : (es.map Entity.id).Nodup) (hfresh : ∀ i, lo.babyId i ≠ e.id)
    (hdt : 0 < dt) :
    (e.age ≥ 3000 → ∀ e' ∈ (mainPass lo dt t es).1, e'.id ≠ e.id) ∧
    (e.energy ≤ 0 → ∀ e' ∈ (mainPass lo dt t es).1, e'.id = e.id → 0 < e'.energy) := by
  constructor
  · intro hage e' he' heq
    rcases mainPass_mem_spec lo dt t es e' he' with ⟨a, ha, hid, haage, _⟩ | ⟨i, hid⟩
    · have haid : a.id = e.id := by rw [← hid, heq]
      have : a = e := List.inj_on_of_nodup_map hnodup ha hmem haid
      rw [this] at haage
      linarith
    · exact hfresh i (by rw [← hid, heq])
  · intro _ e' he' heq
    rcases mainPass_mem_spec lo dt t es e' he' with ⟨a, ha, hid, haage, hpos⟩ | ⟨i, hid⟩
    · exact hpos
    · exact absurd (by rw [← hid, heq]) (hfresh i)

/-- C2 witness: a 3000-tick-old mammal's id is absent after the pass. -/
theorem aged_entities_always_culled_witness :
    "m" ∉ (mainPass loZero 1 tZero [{ mkMammal 0 with age := 3000 }]).1.map Entity.id := by
  intro hmem
  obtain ⟨e', he', hid⟩ := List.mem_map.mp hmem
  exact (aged_entities_always_culled loZero 1 tZero [{ mkMammal 0 with age := 3000 }]
      { mkMammal 0 with age := 3000 } (List.mem_singleton.mpr rfl)
      (by simp) (fun i => by simp [loZero, mkMammal]) one_pos).1
    (by norm_num) e' he' hid

/-! ## C7: predation between two close entities -/

/-- C7 counterexample: two reptile carnivores 0 units apart, each with energy
below its cap, consume each other in the same feeding pass (a consumed
entity still hunts on its own turn), so the tick removes BOTH of the two
entities, not exactly one. -/
theorem mutual_predation_removes_both :
    reptA.diet = Diet.CARNIVORE ∧ reptA.energy < reptA.maxEnergy ∧
    loZero.sqrt ((reptB.x - reptA.x) ^ 2 + (reptB.z - reptA.z) ^ 2) < 2 ∧
    (lifecycleTick soNone loZero 1 [] tZero [reptA, reptB] []).entities = [] := by
  refine ⟨rfl, by norm_num [reptA], ?_, ?_⟩
  · have h : loZero.sqrt ((reptB.x - reptA.x) ^ 2 + (reptB.z - reptA.z) ^ 2) = 0 := by
      with_unfolding_all rfl
    rw [h]; norm_num
  · with_unfolding_all rfl

/-- C7 amended: when the second entity is a non-predator (HERBIVORE diet)
within 2 units, and the carnivore's post-feeding energy cannot trigger
reproduction, the main pass removes exactly the prey and leaves the carnivore
with energy increased by 50 minus the flat 0.1*dt metabolic cost.  (If both
entities are predators, both can be removed; if the +50 lifts the survivor
over 90% of its cap, reproduction rescales its energy to 60%.) -/
theorem carnivore_eats_lone_herbivore (lo : LifeOracle) (dt : ℚ) (t : TerrainData)
    (pred prey : Entity)
    (hdt : 0 < dt)
    (hid : pred.id ≠ prey.id)
    (hdiet : pred.diet = .CARNIVORE)
    (hprey : prey.diet = .HERBIVORE)
    (hdist : lo.sqrt ((prey.x - pred.x) ^ 2 + (prey.z - pred.z) ^ 2) < 2)
    (hen : pred.energy < pred.maxEnergy)
    (hsurv : 0 < pred.energy - 0.1 * dt + 50)
    (hage : pred.age + dt < 3000)
    (hnorep : pred.energy - 0.1 * dt + 50 ≤ pred.maxEnergy * 0.9) :
    (mainPass lo dt t [pred, prey]).1 =
      [{ pred with age := pred.age + dt, energy := pred.energy - 0.1 * dt + 50 }] := by
  have hc1 : ¬ (pred.energy - 0.1 * dt ≥ pred.maxEnergy) := by
    intro hc; linarith
  have hidps : prey.id ≠ pred.id := Ne.symm hid
  have hstep1 : feedOne lo dt
      [{pred with age := pred.age + dt, energy := pred.energy - 0.1 * dt},
       {prey with age := prey.age + dt, energy := prey.energy - 0.1 * dt}]
      (t, [], [])
      {pred with age := pred.age + dt, energy := pred.energy - 0.1 * dt} =
      (t, [prey.id],
       [{pred with age := pred.age + dt, energy := pred.energy - 0.1 * dt + 0 + 50}]) := by
    unfold feedOne
    rw [if_neg hc1]
    dsimp only
    rw [if_neg (by simp [hdiet]), if_pos (Or.inl hdiet),
      List.find?_cons_of_neg _ (by simp),
      List.find?_cons_of_pos _ (by simp [hidps, hdist])]
    rfl
  have hstep2 : ∃ T2 en2, feedOne lo dt
      [{pred with age := pred.age + dt, energy := pred.energy - 0.1 * dt},
       {prey with age := prey.age + dt, energy := prey.energy - 0.1 * dt}]
      (t, [prey.id],
       [{pred with age := pred.age + dt, energy := pred.energy - 0.1 * dt + 0 + 50}])
      {prey with age := prey.age + dt, energy := prey.energy - 0.1 * dt} =
      (T2, [prey.id],
       [{pred with age := pred.age + dt, energy := pred.energy - 0.1 * dt + 0 + 50},
        {prey with age := prey.age + dt, energy := en2}]) := by
    unfold feedOne
    split
    · exact ⟨t, prey.energy - 0.1 * dt, rfl⟩
    · dsimp only
      rw [if_pos (Or.inl hprey), if_neg (by simp [hprey])]
      exact ⟨_, _, rfl⟩
  obtain ⟨T2, en2, hstep2⟩ := hstep2
  unfold mainPass
  dsimp only
  simp only [List.map_cons, List.map_nil, List.foldl_cons, List.foldl_nil]
  simp only [hstep1, hstep2]
  have hsurv2 : (0:ℚ) < pred.energy - 0.1 * dt + 0 + 50 := by linarith
  have hnr2 : ¬ (pred.energy - 0.1 * dt + 0 + 50 > pred.maxEnergy * 0.9) := by
    intro hc; linarith
  have hnr3 : ¬ (pred.energy - 0.1 * dt + 50 > pred.maxEnergy * 0.9) := by
    intro hc; linarith
  have hsurv3 : (0:ℚ) < pred.energy - 0.1 * dt + 50 := hsurv
  simp [List.filter_cons, List.filter_nil, hid, Ne.symm hid, hsurv2, hsurv3,
    hage, hnr2, hnr3, List.enum, reproduceOne, add_zero]

/-- C7 witness: the carnivore at 80 of 150 energy eats the co-located mammal
and finishes the pass alone at energy 129.9. -/
theorem carnivore_eats_lone_herbivore_witness :
    (mainPass loZero 1 tZero [predW, preyW]).1 =
      [{ predW with age := predW.age + 1, energy := predW.energy - 0.1 * 1 + 50 }] :=
  carnivore_eats_lone_herbivore loZero 1 tZero predW preyW one_pos
    (by simp [predW, preyW, reptA]) rfl rfl
    (by have h : loZero.sqrt ((preyW.x - predW.x) ^ 2 + (preyW.z - predW.z) ^ 2) = 0 := by
          with_unfolding_all rfl
        rw [h]; norm_num)
    (by norm_num [predW, reptA]) (by norm_num [predW, reptA])
    (by norm_num [predW, reptA]) (by norm_num [predW, reptA])

end VoxelGenesis
